import Mathlib

/-!
Verification of the global electricity data pipeline and its dashboards.

The development shallowly embeds the Python sources:
* `pipeline.py` — identifier reconciliation (`iso2_to_iso3`), the consumption
  fetcher (`fetch_consumption_data`), the two-step inner-join integrator
  (`integrate_data`) and the CSV writer (`save_final_dataset`);
* `dashboard.py`, `dashboard2.py`, `dashboard3.py`, `deployedDashboard1.py` —
  the KPI blocks, the base-100 indexing block and the bump-chart ranking.

Tables are lists of records.  A pandas inner merge on key columns is embedded
as: for each row of the left table in order, emit the combination with every
matching row of the right table in right-table order (pandas preserves the
order of the left keys for an inner merge).  Null cells (None / NaN) are
`Option` values; float division that would produce NaN or infinity (zero
denominator) is represented by `none`.
-/

/-- An entry of the ISO 3166-1 reference table used by the pycountry library:
a two-letter code paired with its three-letter code. -/
structure Country where
  alpha_2 : String
  alpha_3 : String
deriving DecidableEq

/-- Modelled from the spec: the static reference table of recognized national
codes consulted by `iso2_to_iso3` (pipeline.py line 17).  The pycountry
library ships the full ISO 3166-1 table, which is not part of this
repository; the model carries a representative subset of entries.  Aggregate
identifiers used by the API (regions, income groups) are absent from the
table, exactly as they are absent from ISO 3166-1. -/
def pycountryCountries : List Country :=
  [⟨"US", "USA"⟩, ⟨"FR", "FRA"⟩, ⟨"GB", "GBR"⟩, ⟨"DE", "DEU"⟩,
   ⟨"CN", "CHN"⟩, ⟨"IN", "IND"⟩, ⟨"BR", "BRA"⟩, ⟨"NO", "NOR"⟩,
   ⟨"IS", "ISL"⟩, ⟨"JP", "JPN"⟩]

/-- `pycountry.countries.get(alpha_2=code)` : first entry whose two-letter
code matches, or `None`. -/
def countriesGetAlpha2 (code : String) : Option Country :=
  pycountryCountries.find? fun ct => ct.alpha_2 == code

/-- Reading `.alpha_3` off the result of the lookup: on `None` this raises
`AttributeError`, embedded as the error branch of `Except`. -/
def getAlpha3Attr : Option Country → Except String String
  | some ct => Except.ok ct.alpha_3
  | none => Except.error "AttributeError"

/-- pipeline.py lines 15-19: `iso2_to_iso3` wraps the attribute access in
`try/except` and returns `None` on any failure, so the function itself never
propagates an exception. -/
def iso2_to_iso3 (code : String) : Option String :=
  match getAlpha3Attr (countriesGetAlpha2 code) with
  | Except.ok a3 => some a3
  | Except.error _ => none

/-- One record of the World Bank indicator API response: `country.id` is the
two-letter code, `date` the year as a string, `value` a float or null. -/
structure ApiRecord where
  country_id : String
  date : String
  value : Option ℚ
deriving DecidableEq

/-- A row of the consumption table built by `fetch_consumption_data`.  The
value column is non-null by construction: the loop only appends records whose
value is not `None`. -/
structure ConsRow where
  country_code : String
  year : Int
  electricity_use_kwh_per_capita : ℚ
deriving DecidableEq

/-- A row of the renewable table (`load_renewable_data`), after the column
rename; the CSV may hold null indicator cells, hence `Option`. -/
structure RenRow where
  country_code : String
  country_name : String
  year : Int
  renewable_electricity_percent : Option ℚ
deriving DecidableEq

/-- A row of the losses table read verbatim from SQLite
(`load_losses_data`). -/
structure LossRow where
  country_code : String
  year : Int
  electricity_losses_pct : Option ℚ
deriving DecidableEq

/-- Python truthiness of an optional string: `None` and the empty string are
falsy (`if iso3 ...`, pipeline.py line 41). -/
def pyTruthyStr : Option String → Bool
  | some s => !s.isEmpty
  | none => false

/-- Decimal reading of a character list: `none` unless the list is a
non-empty run of digits. -/
def digitsToNat (cs : List Char) : Option ℕ :=
  if cs.isEmpty then none
  else if cs.all fun ch => ch.isDigit then
    some (cs.foldl (fun n ch => 10 * n + (ch.toNat - 48)) 0)
  else none

/-- Python `int(...)` applied to the `date` string: an optional minus sign
followed by decimal digits; `none` is the `ValueError` case. -/
def pyIntOfString (s : String) : Option Int :=
  match s.data with
  | '-' :: rest => (digitsToNat rest).map fun n => -(n : Int)
  | cs => (digitsToNat cs).map fun n => (n : Int)

/-- pipeline.py lines 27-49: walk the API records in order; keep a record
when its two-letter code maps to a (truthy) three-letter code and its value
is not null, emitting `(country_code, year, value)`; skip it otherwise.
`int(item["date"])` is evaluated only for kept records, and an unparseable
date there raises `ValueError`, which the task does not catch — embedded as
the `Except` error branch. -/
def fetch_consumption_data : List ApiRecord → Except String (List ConsRow)
  | [] => Except.ok []
  | item :: rest =>
    match iso2_to_iso3 item.country_id, item.value with
    | some iso3, some v =>
      if iso3.isEmpty then fetch_consumption_data rest
      else
        match pyIntOfString item.date with
        | some y => (fetch_consumption_data rest).map fun tail => ⟨iso3, y, v⟩ :: tail
        | none => Except.error "ValueError"
    | some _, none => fetch_consumption_data rest
    | none, _ => fetch_consumption_data rest

/-- Whether the loop body keeps a record: the mapped code is truthy and the
value is not null. -/
def keepRecord (item : ApiRecord) : Bool :=
  pyTruthyStr (iso2_to_iso3 item.country_id) && item.value.isSome

/-- The row a single kept record contributes: the mapped ISO-3 code, the year
parsed as an integer, and the value; `none` for a dropped record. -/
def consRowOfRecord (item : ApiRecord) : Option ConsRow :=
  match iso2_to_iso3 item.country_id, item.value with
  | some iso3, some v =>
    if iso3.isEmpty then none
    else (pyIntOfString item.date).map fun y => ⟨iso3, y, v⟩
  | some _, none => none
  | none, _ => none

/-- Join key of a renewable row. -/
def RenRow.key (a : RenRow) : String × Int :=
  (a.country_code, a.year)

/-- Join key of a losses row. -/
def LossRow.key (b : LossRow) : String × Int :=
  (b.country_code, b.year)

/-- Join key of a consumption row. -/
def ConsRow.key (e : ConsRow) : String × Int :=
  (e.country_code, e.year)

/-- A row of the intermediate table `renewable.merge(losses)`: the renewable
columns followed by the non-key losses column. -/
structure Row2 where
  country_code : String
  country_name : String
  year : Int
  renewable_electricity_percent : Option ℚ
  electricity_losses_pct : Option ℚ
deriving DecidableEq

/-- A row of the integrated table: the intermediate columns followed by the
non-key consumption column. -/
structure Row3 where
  country_code : String
  country_name : String
  year : Int
  renewable_electricity_percent : Option ℚ
  electricity_losses_pct : Option ℚ
  electricity_use_kwh_per_capita : ℚ
deriving DecidableEq

/-- Join key of an integrated row. -/
def Row3.key (row : Row3) : String × Int :=
  (row.country_code, row.year)

/-- The `on=["country_code", "year"]` match between a renewable row and a
losses row. -/
def keyMatchRL (a : RenRow) (b : LossRow) : Bool :=
  a.country_code == b.country_code && a.year == b.year

/-- Combination of a matched renewable row and losses row. -/
def mkRow2 (a : RenRow) (b : LossRow) : Row2 :=
  ⟨a.country_code, a.country_name, a.year,
   a.renewable_electricity_percent, b.electricity_losses_pct⟩

/-- The `on=["country_code", "year"]` match between an intermediate row and a
consumption row. -/
def keyMatchC (d : Row2) (e : ConsRow) : Bool :=
  d.country_code == e.country_code && d.year == e.year

/-- Combination of a matched intermediate row and consumption row. -/
def mkRow3 (d : Row2) (e : ConsRow) : Row3 :=
  ⟨d.country_code, d.country_name, d.year,
   d.renewable_electricity_percent, d.electricity_losses_pct,
   e.electricity_use_kwh_per_capita⟩

/-- pipeline.py lines 94-98: `renewable.merge(losses, on=[...], how="inner")`.
For each renewable row in order, every matching losses row in order. -/
def mergeRenewableLosses (renewable : List RenRow) (losses : List LossRow) : List Row2 :=
  renewable.flatMap fun a => (losses.filter fun b => keyMatchRL a b).map fun b => mkRow2 a b

/-- The opposite first join `losses.merge(renewable, ...)`, stated by the spec
as the comparison point for join-order associativity; the combined record is
the same, only the driving table differs. -/
def mergeLossesRenewable (losses : List LossRow) (renewable : List RenRow) : List Row2 :=
  losses.flatMap fun b => (renewable.filter fun a => keyMatchRL a b).map fun a => mkRow2 a b

/-- pipeline.py lines 91-107: `integrate_data` merges renewable with losses,
then merges the result with consumption, both inner on (country_code, year). -/
def integrate_data (consumption : List ConsRow) (renewable : List RenRow)
    (losses : List LossRow) : List Row3 :=
  (mergeRenewableLosses renewable losses).flatMap fun d =>
    (consumption.filter fun e => keyMatchC d e).map fun e => mkRow3 d e

/-- The spec comparison pipeline `(losses ⋈ renewable) ⋈ consumption`. -/
def integrateLossesFirst (consumption : List ConsRow) (renewable : List RenRow)
    (losses : List LossRow) : List Row3 :=
  (mergeLossesRenewable losses renewable).flatMap fun d =>
    (consumption.filter fun e => keyMatchC d e).map fun e => mkRow3 d e

/-- Column order of a pandas merge on key columns: the left frame columns in
order, then the right frame columns that are not join keys, in order. -/
def mergeColumns (left right keys : List String) : List String :=
  left ++ right.filter fun col => !(keys.contains col)

/-- The join key columns of every merge in `integrate_data`. -/
def joinKeys : List String :=
  ["country_code", "year"]

/-- Columns of the consumption frame, in the insertion order of the dict
built at pipeline.py lines 42-46. -/
def consumptionColumns : List String :=
  ["country_code", "year", "electricity_use_kwh_per_capita"]

/-- Modelled from the spec: the columns of the renewable CSV after the rename
at pipeline.py lines 61-64.  The processed CSV file itself is not part of the
repository; the spec lists its columns as Country Code, Country Name, year,
renewable_electricity_percent. -/
def renewableColumns : List String :=
  ["country_code", "country_name", "year", "renewable_electricity_percent"]

/-- Columns of the losses table read verbatim from SQLite. -/
def lossesColumns : List String :=
  ["country_code", "year", "electricity_losses_pct"]

/-- Column order of the table returned by `integrate_data`: the two-step
merge applied to the source column lists. -/
def integratedColumns : List String :=
  mergeColumns (mergeColumns renewableColumns lossesColumns joinKeys) consumptionColumns joinKeys

/-- pipeline.py lines 114-118: `to_csv(..., index=False)` writes the frame
columns unchanged, so the saved file has exactly the integrated columns. -/
def save_final_dataset_columns : List String :=
  integratedColumns

/-- Sidebar filter of dashboard.py lines 55-59: match on the `country_code`
column and the inclusive year range. -/
def dashFilterByCode (df : List Row3) (country : String) (y1 y2 : Int) : List Row3 :=
  df.filter fun row => row.country_code == country && y1 ≤ row.year && row.year ≤ y2

/-- Sidebar filter of dashboard2.py, dashboard3.py and deployedDashboard1.py:
match on the `country_name` column and the inclusive year range. -/
def dashFilterByName (df : List Row3) (country : String) (y1 y2 : Int) : List Row3 :=
  df.filter fun row => row.country_name == country && y1 ≤ row.year && row.year ≤ y2

/-- Arithmetic mean of a list of rationals. -/
def listMean (xs : List ℚ) : ℚ :=
  xs.sum / xs.length

/-- `Series.mean()` over a column that may hold nulls: pandas skips the null
cells; when every cell is null the mean itself is NaN, embedded as `none`. -/
def meanSkipNone (xs : List (Option ℚ)) : Option ℚ :=
  let ys := xs.filterMap id
  if ys.isEmpty then none else some (listMean ys)

/-- What a KPI block renders: three metric cards, a warning notice, or
nothing at all (the guard failed and the block has no else branch). -/
inductive KpiOutput where
  | metrics (useMean : ℚ) (renewMean lossMean : Option ℚ)
  | warning (msg : String)
  | skipped
deriving DecidableEq

/-- The warning text of dashboard.py line 85 and deployedDashboard1.py
line 74. -/
def noDataMsg : String :=
  "No data available for selected filters."

/-- dashboard.py lines 67-85: metrics on a non-empty subset, an explicit
warning otherwise. -/
def kpiDashboard (filtered : List Row3) : KpiOutput :=
  if filtered.isEmpty then KpiOutput.warning noDataMsg
  else
    KpiOutput.metrics (listMean (filtered.map Row3.electricity_use_kwh_per_capita))
      (meanSkipNone (filtered.map Row3.renewable_electricity_percent))
      (meanSkipNone (filtered.map Row3.electricity_losses_pct))

/-- dashboard2.py lines 60-76: metrics on a non-empty subset; the guard has
no else branch, so an empty subset renders nothing. -/
def kpiDashboard2 (filtered : List Row3) : KpiOutput :=
  if filtered.isEmpty then KpiOutput.skipped
  else
    KpiOutput.metrics (listMean (filtered.map Row3.electricity_use_kwh_per_capita))
      (meanSkipNone (filtered.map Row3.renewable_electricity_percent))
      (meanSkipNone (filtered.map Row3.electricity_losses_pct))

/-- dashboard3.py lines 60-76: identical to dashboard2.py, no else branch. -/
def kpiDashboard3 (filtered : List Row3) : KpiOutput :=
  if filtered.isEmpty then KpiOutput.skipped
  else
    KpiOutput.metrics (listMean (filtered.map Row3.electricity_use_kwh_per_capita))
      (meanSkipNone (filtered.map Row3.renewable_electricity_percent))
      (meanSkipNone (filtered.map Row3.electricity_losses_pct))

/-- deployedDashboard1.py lines 56-74: metrics on a non-empty subset, an
explicit warning otherwise. -/
def kpiDeployed (filtered : List Row3) : KpiOutput :=
  if filtered.isEmpty then KpiOutput.warning noDataMsg
  else
    KpiOutput.metrics (listMean (filtered.map Row3.electricity_use_kwh_per_capita))
      (meanSkipNone (filtered.map Row3.renewable_electricity_percent))
      (meanSkipNone (filtered.map Row3.electricity_losses_pct))

/-- Whether a KPI output is an explicit user-visible no-data notice. -/
def KpiOutput.showsNoData : KpiOutput → Bool
  | KpiOutput.warning _ => true
  | _ => false

/-- `sort_values("year")`: sort the filtered rows by year ascending. -/
def sortByYear (rows : List Row3) : List Row3 :=
  List.insertionSort (fun x y : Row3 => x.year ≤ y.year) rows

/-- Float division scaled to base 100, `v / base * 100`: a zero denominator
produces NaN or infinity, embedded as `none`. -/
def indexDiv (v base : ℚ) : Option ℚ :=
  if base = 0 then none else some (v / base * 100)

/-- The same division on nullable cells: a null numerator or denominator
propagates (NaN arithmetic). -/
def optIndexDiv : Option ℚ → Option ℚ → Option ℚ
  | some v, some base => indexDiv v base
  | _, _ => none

/-- One row of the indexed-comparison table. -/
structure IndexedRow where
  year : Int
  useIndex : Option ℚ
  renewIndex : Option ℚ
  lossIndex : Option ℚ
deriving DecidableEq

/-- dashboard.py lines 275-281 (and deployedDashboard1.py lines 108-123):
sort the filtered subset by year, take `iloc[0]` as the base row, and divide
every row of each indicator column by the base value, times 100. -/
def indexedBlock (filtered : List Row3) : List IndexedRow :=
  match sortByYear filtered with
  | [] => []
  | base :: rest =>
    (base :: rest).map fun row =>
      ⟨row.year,
       indexDiv row.electricity_use_kwh_per_capita base.electricity_use_kwh_per_capita,
       optIndexDiv row.renewable_electricity_percent base.renewable_electricity_percent,
       optIndexDiv row.electricity_losses_pct base.electricity_losses_pct⟩

/-- The pandas rank of the element at position `i` of `vs` under
`rank(method="first", ascending=False)`: one more than the number of strictly
greater values anywhere plus the number of equal values at earlier
positions. -/
def rankOfIdx (vs : List ℚ) (i : ℕ) : ℕ :=
  1 + (vs.countP fun w => decide (vs.getD i 0 < w))
    + ((vs.take i).countP fun w => decide (w = vs.getD i 0))

/-- dashboard3.py lines 227-229: `rank(method="first", ascending=False)`
applied to the consumption values of one year group, listed in row order. -/
def rankFirstDesc (vs : List ℚ) : List ℕ :=
  (List.range vs.length).map (rankOfIdx vs)

/-! ### Helper lemmas on the join embedding -/

lemma keyMatchRL_iff (a : RenRow) (b : LossRow) :
    keyMatchRL a b = true ↔ RenRow.key a = LossRow.key b := by
  simp [keyMatchRL, RenRow.key, LossRow.key, Prod.ext_iff]

lemma keyMatchC_iff (d : Row2) (e : ConsRow) :
    keyMatchC d e = true ↔ (d.country_code, d.year) = ConsRow.key e := by
  simp [keyMatchC, ConsRow.key, Prod.ext_iff]

lemma mkRow3_key (d : Row2) (e : ConsRow) :
    Row3.key (mkRow3 d e) = (d.country_code, d.year) := rfl

lemma mkRow2_cc_year (a : RenRow) (b : LossRow) :
    ((mkRow2 a b).country_code, (mkRow2 a b).year) = RenRow.key a := rfl

lemma mem_integrate_iff {c : List ConsRow} {r : List RenRow} {l : List LossRow} {row : Row3} :
    row ∈ integrate_data c r l ↔
      ∃ a ∈ r, ∃ b ∈ l, ∃ e ∈ c,
        keyMatchRL a b = true ∧ keyMatchC (mkRow2 a b) e = true ∧ row = mkRow3 (mkRow2 a b) e := by
  simp only [integrate_data, mergeRenewableLosses, List.mem_flatMap, List.mem_map,
    List.mem_filter]
  constructor
  · rintro ⟨d, ⟨a, ha, b, ⟨hb, hab⟩, rfl⟩, e, ⟨he, hde⟩, rfl⟩
    exact ⟨a, ha, b, hb, e, he, hab, hde, rfl⟩
  · rintro ⟨a, ha, b, hb, e, he, hab, hde, rfl⟩
    exact ⟨mkRow2 a b, ⟨a, ha, b, ⟨hb, hab⟩, rfl⟩, e, ⟨he, hde⟩, rfl⟩

/-! ### Claim C1: inner-join membership -/

/-- Renewable source of the worked example of the spec. -/
def renC1 : List RenRow :=
  [⟨"USA", "United States", 2010, some 13⟩]

/-- Losses source of the worked example: (USA, 2010) and (FRA, 2010). -/
def lossC1 : List LossRow :=
  [⟨"USA", 2010, some 6⟩, ⟨"FRA", 2010, some 7⟩]

/-- Consumption source of the worked example. -/
def consC1 : List ConsRow :=
  [⟨"USA", 2010, 12000⟩]

/-- Claim C1: the table returned by `integrate_data` contains a row for a
(country_code, year) pair if and only if that pair occurs in all three source
tables; and on the worked example — renewable containing (USA, 2010), losses
containing (USA, 2010) and (FRA, 2010), consumption containing (USA, 2010) —
the result is exactly one row, keyed (USA, 2010). -/
theorem integrate_data_key_iff :
    (∀ (c : List ConsRow) (r : List RenRow) (l : List LossRow) (k : String × Int),
        k ∈ (integrate_data c r l).map Row3.key ↔
          k ∈ r.map RenRow.key ∧ k ∈ l.map LossRow.key ∧ k ∈ c.map ConsRow.key) ∧
    (integrate_data consC1 renC1 lossC1).map Row3.key = [("USA", 2010)] := by
  constructor
  · intro c r l k
    constructor
    · rintro hk
      rw [List.mem_map] at hk
      obtain ⟨row, hrow, rfl⟩ := hk
      rw [mem_integrate_iff] at hrow
      obtain ⟨a, ha, b, hb, e, he, hab, hde, rfl⟩ := hrow
      rw [mkRow3_key, mkRow2_cc_year]
      refine ⟨List.mem_map_of_mem _ ha, ?_, ?_⟩
      · rw [keyMatchRL_iff] at hab
        rw [hab]
        exact List.mem_map_of_mem _ hb
      · rw [keyMatchC_iff, mkRow2_cc_year] at hde
        rw [hde]
        exact List.mem_map_of_mem _ he
    · rintro ⟨hr, hl, hc⟩
      rw [List.mem_map] at hr hl hc
      obtain ⟨a, ha, rfl⟩ := hr
      obtain ⟨b, hb, hbk⟩ := hl
      obtain ⟨e, he, hek⟩ := hc
      rw [List.mem_map]
      refine ⟨mkRow3 (mkRow2 a b) e, ?_, ?_⟩
      · rw [mem_integrate_iff]
        refine ⟨a, ha, b, hb, e, he, ?_, ?_, rfl⟩
        · rw [keyMatchRL_iff, hbk]
        · rw [keyMatchC_iff, mkRow2_cc_year, hek]
      · rw [mkRow3_key, mkRow2_cc_year]
  · decide

/-! ### Claim C3: identifier reconciliation -/

/-- Claim C3: for every entry of the reference table, `iso2_to_iso3` maps its
two-letter code to exactly its three-letter code; for any input matching no
entry it returns the sentinel `none`; and when the attribute access fails
(the lookup produced `None`), the bare except turns the exception into the
sentinel rather than propagating it — the function never raises. -/
theorem iso2_to_iso3_spec :
    (∀ ct ∈ pycountryCountries, iso2_to_iso3 ct.alpha_2 = some ct.alpha_3) ∧
    (∀ s : String, (∀ ct ∈ pycountryCountries, ct.alpha_2 ≠ s) → iso2_to_iso3 s = none) ∧
    (∀ s : String, countriesGetAlpha2 s = none → iso2_to_iso3 s = none) := by
  refine ⟨by decide, ?_, ?_⟩
  · intro s hs
    have hfind : countriesGetAlpha2 s = none := by
      rw [countriesGetAlpha2, List.find?_eq_none]
      intro ct hct
      simp [hs ct hct]
    rw [iso2_to_iso3, hfind]
    rfl
  · intro s hs
    rw [iso2_to_iso3, hs]
    rfl

/-- Witness for C3: the recognized code US maps to USA, the unrecognized
aggregate code XX maps to the sentinel. -/
theorem iso2_to_iso3_spec_witness :
    iso2_to_iso3 "US" = some "USA" ∧ iso2_to_iso3 "XX" = none :=
  ⟨iso2_to_iso3_spec.1 ⟨"US", "USA"⟩ (by decide),
   iso2_to_iso3_spec.2.1 "XX" (by decide)⟩

/-! ### Claim C5: non-null indicator columns in the integrated table -/

/-- Renewable source whose indicator value is null for the matching key. -/
def renNull : List RenRow :=
  [⟨"USA", "United States", 2010, none⟩]

/-- Losses source matching (USA, 2010) with a non-null value. -/
def lossNull : List LossRow :=
  [⟨"USA", 2010, some 6⟩]

/-- Consumption source matching (USA, 2010). -/
def consNull : List ConsRow :=
  [⟨"USA", 2010, 12000⟩]

/-- Counterexample to C5: with a null renewable indicator value for a key
present in all three sources, `integrate_data` emits a row whose
renewable_electricity_percent column is null — the inner join matches on
keys only and does not filter null indicator values. -/
theorem integrate_nonnull_cex :
    ∃ row ∈ integrate_data consNull renNull lossNull,
      row.renewable_electricity_percent = none := by
  decide

/-- Claim C5 as amended: every row emitted by `integrate_data` carries a
non-null consumption value by construction (`fetch_consumption_data` appends
only records with a non-null value, so the consumption column is total), and
its renewable and losses columns are non-null provided the renewable and
losses sources contain no null indicator values for the joined keys — the
keys present in all three sources.  Null indicator values at keys that do
not survive the join are irrelevant; a null in a matching source row
propagates to the output. -/
theorem integrate_nonnull_amended (c : List ConsRow) (r : List RenRow) (l : List LossRow)
    (hr : ∀ a ∈ r, RenRow.key a ∈ l.map LossRow.key → RenRow.key a ∈ c.map ConsRow.key →
      a.renewable_electricity_percent ≠ none)
    (hl : ∀ b ∈ l, LossRow.key b ∈ r.map RenRow.key → LossRow.key b ∈ c.map ConsRow.key →
      b.electricity_losses_pct ≠ none) :
    ∀ row ∈ integrate_data c r l,
      row.renewable_electricity_percent ≠ none ∧ row.electricity_losses_pct ≠ none := by
  intro row hrow
  rw [mem_integrate_iff] at hrow
  obtain ⟨a, ha, b, hb, e, he, hab, hde, rfl⟩ := hrow
  rw [keyMatchRL_iff] at hab
  rw [keyMatchC_iff, mkRow2_cc_year] at hde
  have hal : RenRow.key a ∈ l.map LossRow.key := by
    rw [hab]
    exact List.mem_map_of_mem _ hb
  have hac : RenRow.key a ∈ c.map ConsRow.key := by
    rw [hde]
    exact List.mem_map_of_mem _ he
  have hbr : LossRow.key b ∈ r.map RenRow.key := by
    rw [← hab]
    exact List.mem_map_of_mem _ ha
  have hbc : LossRow.key b ∈ c.map ConsRow.key := by
    rw [← hab, hde]
    exact List.mem_map_of_mem _ he
  exact ⟨hr a ha hal hac, hl b hb hbr hbc⟩

/-- Renewable source for the C5 witness: null-free at the joined key
(USA, 2010), but with a null indicator at (GBR, 2012), a key absent from the
other two sources. -/
def renMix : List RenRow :=
  [⟨"USA", "United States", 2010, some 13⟩, ⟨"GBR", "United Kingdom", 2012, none⟩]

/-- Losses source for the C5 witness: null-free at (USA, 2010), null at
(FRA, 2011), a key absent from consumption. -/
def lossMix : List LossRow :=
  [⟨"USA", 2010, some 6⟩, ⟨"FRA", 2011, none⟩]

/-- Consumption source for the C5 witness: only (USA, 2010) survives the
triple join. -/
def consMix : List ConsRow :=
  [⟨"USA", 2010, 12000⟩]

/-- Witness for C5 as amended: sources that do carry null indicator values —
at keys that do not survive the join — still satisfy the joined-keys
hypotheses, and every emitted row has non-null indicator columns. -/
theorem integrate_nonnull_amended_witness :
    (∀ a ∈ renMix, RenRow.key a ∈ lossMix.map LossRow.key →
      RenRow.key a ∈ consMix.map ConsRow.key → a.renewable_electricity_percent ≠ none) ∧
    (∀ b ∈ lossMix, LossRow.key b ∈ renMix.map RenRow.key →
      LossRow.key b ∈ consMix.map ConsRow.key → b.electricity_losses_pct ≠ none) ∧
    ∀ row ∈ integrate_data consMix renMix lossMix,
      row.renewable_electricity_percent ≠ none ∧ row.electricity_losses_pct ≠ none :=
  ⟨by decide, by decide,
   integrate_nonnull_amended consMix renMix lossMix (by decide) (by decide)⟩

/-! ### Claim C6: output column order -/

/-- Counterexample to C6: the claimed column order (consumption column before
the renewable and losses columns) is not the order the join sequence
produces, since the consumption table is merged last and its non-key column
is appended after every column of the first merge. -/
theorem integrated_columns_cex :
    integratedColumns ≠
      ["country_code", "country_name", "year", "electricity_use_kwh_per_capita",
       "renewable_electricity_percent", "electricity_losses_pct"] := by
  decide

/-- Claim C6 as amended: the saved file has exactly the columns country_code,
country_name, year, renewable_electricity_percent, electricity_losses_pct,
electricity_use_kwh_per_capita, in that order — and whatever the column
order of the two source frames of the first merge, the consumption column is
always appended last by the second merge. -/
theorem integrated_columns_order :
    save_final_dataset_columns =
      ["country_code", "country_name", "year", "renewable_electricity_percent",
       "electricity_losses_pct", "electricity_use_kwh_per_capita"] ∧
    ∀ rc lc : List String,
      mergeColumns (mergeColumns rc lc joinKeys) consumptionColumns joinKeys =
        mergeColumns rc lc joinKeys ++ ["electricity_use_kwh_per_capita"] :=
  ⟨by decide, fun rc lc => rfl⟩

/-! ### Claim C7: empty-selection KPI behaviour -/

/-- A small integrated dataset for the dashboards. -/
def demoDf : List Row3 :=
  [⟨"USA", "United States", 2010, some 13, some 6, 12000⟩,
   ⟨"FRA", "France", 2011, some 16, some 7, 7000⟩]

/-- Counterexample to C7: selecting a country absent from the data gives an
empty filtered subset, and the KPI block of dashboard2.py (whose guard has no
else branch) renders no user-visible no-data notice; dashboard3.py behaves
identically. -/
theorem kpi_no_notice_cex :
    dashFilterByName demoDf "Nowhere" 2010 2011 = [] ∧
    (kpiDashboard2 (dashFilterByName demoDf "Nowhere" 2010 2011)).showsNoData = false ∧
    (kpiDashboard3 (dashFilterByName demoDf "Nowhere" 2010 2011)).showsNoData = false := by
  decide

/-- Claim C7 as amended: on an empty filtered subset, the KPI blocks of
dashboard.py and deployedDashboard1.py show the explicit warning notice,
while dashboard2.py and dashboard3.py render no KPI output at all; in every
variant the three means are computed only under a non-emptiness guard, so no
mean over an empty subset — NaN or otherwise — reaches the user-visible KPI
output. -/
theorem kpi_empty_selection (df : List Row3) (country : String) (y1 y2 : Int)
    (hc : dashFilterByCode df country y1 y2 = [])
    (hn : dashFilterByName df country y1 y2 = []) :
    kpiDashboard (dashFilterByCode df country y1 y2) = KpiOutput.warning noDataMsg ∧
    kpiDeployed (dashFilterByName df country y1 y2) = KpiOutput.warning noDataMsg ∧
    kpiDashboard2 (dashFilterByName df country y1 y2) = KpiOutput.skipped ∧
    kpiDashboard3 (dashFilterByName df country y1 y2) = KpiOutput.skipped := by
  rw [hc, hn]
  exact ⟨rfl, rfl, rfl, rfl⟩

/-- Witness for C7 as amended: the empty selection of the counterexample
dataset. -/
theorem kpi_empty_selection_witness :
    dashFilterByCode demoDf "Nowhere" 2010 2011 = [] ∧
    dashFilterByName demoDf "Nowhere" 2010 2011 = [] ∧
    kpiDashboard (dashFilterByCode demoDf "Nowhere" 2010 2011) = KpiOutput.warning noDataMsg ∧
    kpiDeployed (dashFilterByName demoDf "Nowhere" 2010 2011) = KpiOutput.warning noDataMsg :=
  ⟨by decide, by decide,
   (kpi_empty_selection demoDf "Nowhere" 2010 2011 (by decide) (by decide)).1,
   (kpi_empty_selection demoDf "Nowhere" 2010 2011 (by decide) (by decide)).2.1⟩

/-! ### Claim C8: base-100 indexing -/

/-- A one-row filtered series whose consumption value in the base year is
zero. -/
def zeroBaseSeries : List Row3 :=
  [⟨"AAA", "Atlantis", 2000, some 5, some 3, 0⟩]

/-- Counterexample to C8: on a non-empty year-sorted series whose base-year
consumption value is zero, the first row of the indexed comparison is not 100
for the consumption indicator — the division 0 / 0 * 100 is NaN (`none`),
exactly the zero-base case the spec itself flags as undefined. -/
theorem indexed_base_cex :
    zeroBaseSeries ≠ [] ∧
    ((indexedBlock zeroBaseSeries).map IndexedRow.useIndex).head? ≠ some (some 100) := by
  decide

/-- Claim C8 as amended: for every filtered series whose year-sorted first
row has a nonzero consumption value and non-null nonzero renewable and
losses values, the first row of the indexed comparison is exactly 100 for
all three indicators. -/
theorem indexed_base_100 (rows : List Row3) (base : Row3) (rest : List Row3)
    (hs : sortByYear rows = base :: rest)
    (hu : base.electricity_use_kwh_per_capita ≠ 0)
    (hr : ∃ rv, base.renewable_electricity_percent = some rv ∧ rv ≠ 0)
    (hl : ∃ lv, base.electricity_losses_pct = some lv ∧ lv ≠ 0) :
    (indexedBlock rows).head? =
      some ⟨base.year, some 100, some 100, some 100⟩ := by
  obtain ⟨rv, hrv, hrv0⟩ := hr
  obtain ⟨lv, hlv, hlv0⟩ := hl
  rw [indexedBlock, hs]
  simp only [List.map_cons, List.head?_cons, Option.some.injEq]
  rw [hrv, hlv]
  simp only [optIndexDiv, indexDiv, if_neg hu, if_neg hrv0, if_neg hlv0]
  rw [div_self hu, div_self hrv0, div_self hlv0]
  norm_num

/-- Witness for C8 as amended: a two-row series with nonzero, non-null base
values indexes its first row to exactly 100 three times. -/
theorem indexed_base_100_witness :
    sortByYear demoDf =
      (⟨"USA", "United States", 2010, some 13, some 6, 12000⟩ : Row3) ::
        [⟨"FRA", "France", 2011, some 16, some 7, 7000⟩] ∧
    (indexedBlock demoDf).head? =
      some ⟨2010, some 100, some 100, some 100⟩ :=
  ⟨by decide,
   indexed_base_100 demoDf ⟨"USA", "United States", 2010, some 13, some 6, 12000⟩
     [⟨"FRA", "France", 2011, some 16, some 7, 7000⟩] (by decide) (by decide)
     ⟨13, rfl, by decide⟩ ⟨6, rfl, by decide⟩⟩


/-! ### Claim C9: the bump-chart ranking -/

lemma countP_two_le {α : Type} (p q : α → Bool) (hpq : ∀ x, p x = true → q x = false) :
    ∀ l : List α, l.countP p + l.countP q ≤ l.length := by
  intro l
  induction l with
  | nil => simp
  | cons x t ih =>
    rw [List.countP_cons, List.countP_cons, List.length_cons]
    split_ifs with h1 h2
    · rw [hpq x h1] at h2
      cases h2
    · omega
    · omega
    · omega

lemma rankOfIdx_bounds (vs : List ℚ) (i : ℕ) (hi : i < vs.length) :
    1 ≤ rankOfIdx vs i ∧ rankOfIdx vs i ≤ vs.length := by
  refine ⟨by rw [rankOfIdx]; omega, ?_⟩
  rw [rankOfIdx]
  have hv : vs.getD i 0 = vs[i] := List.getD_eq_getElem vs 0 hi
  generalize hV : vs.getD i 0 = v
  rw [hV] at hv
  have hsplit : vs = vs.take i ++ vs.drop i := (List.take_append_drop i vs).symm
  have hdrop : vs.drop i = vs[i] :: vs.drop (i + 1) := List.drop_eq_getElem_cons hi
  have hself : (decide (v < vs[i]) : Bool) = false := by
    rw [hv]
    simp
  have hgt : vs.countP (fun w => decide (v < w)) =
      (vs.take i).countP (fun w => decide (v < w)) +
        (vs.drop (i + 1)).countP (fun w => decide (v < w)) := by
    conv_lhs => rw [hsplit]
    rw [List.countP_append, hdrop]
    simp only [List.countP_cons, hself, Bool.false_eq_true, if_false]
    omega
  rw [hgt]
  have h1 : (vs.take i).countP (fun w => decide (v < w)) +
      (vs.take i).countP (fun w => decide (w = v)) ≤ (vs.take i).length := by
    refine countP_two_le _ _ ?_ (vs.take i)
    intro x hx
    rw [decide_eq_true_iff] at hx
    rw [decide_eq_false_iff_not]
    intro hx2
    rw [hx2] at hx
    exact lt_irrefl _ hx
  have h2 : (vs.drop (i + 1)).countP (fun w => decide (v < w)) ≤
      (vs.drop (i + 1)).length := List.countP_le_length _
  have ht : (vs.take i).length = i := by
    rw [List.length_take]
    omega
  have hd : (vs.drop (i + 1)).length = vs.length - (i + 1) := List.length_drop (i + 1) vs
  omega

/-- Counterexample to C9: on consumption values [10, 30, 20, 30, 5] in
original order, `rank(method="first", ascending=False)` does not assign
[5, 1, 3, 2, 4] — the value 10 is the fourth largest and 5 the fifth, so
their ranks are 4 and 5, not 5 and 4. -/
theorem rank_first_desc_cex :
    rankFirstDesc [10, 30, 20, 30, 5] ≠ [5, 1, 3, 2, 4] := by
  decide

/-- Claim C9 as amended: on [10, 30, 20, 30, 5] the assigned ranks are
[4, 1, 3, 2, 5] — the earlier of the two tied 30s ranks 1st and the later
2nd, while 10 ranks 4th and 5 ranks 5th — and for every year group each
assigned position lies between 1 and the group size (in particular in [1, 5]
for a five-value group). -/
theorem rank_first_desc_spec :
    rankFirstDesc [10, 30, 20, 30, 5] = [4, 1, 3, 2, 5] ∧
    ∀ (vs : List ℚ), ∀ rk ∈ rankFirstDesc vs, 1 ≤ rk ∧ rk ≤ vs.length := by
  refine ⟨by decide, ?_⟩
  intro vs rk hrk
  rw [rankFirstDesc, List.mem_map] at hrk
  obtain ⟨i, hi, rfl⟩ := hrk
  rw [List.mem_range] at hi
  exact rankOfIdx_bounds vs i hi

/-- Witness for C9 as amended: the rank assigned to the first value of the
example list lies in [1, 5]. -/
theorem rank_first_desc_spec_witness :
    rankFirstDesc [10, 30, 20, 30, 5] = [4, 1, 3, 2, 5] ∧
    (1 ≤ rankOfIdx [10, 30, 20, 30, 5] 0 ∧
      rankOfIdx [10, 30, 20, 30, 5] 0 ≤ ([10, 30, 20, 30, 5] : List ℚ).length) :=
  ⟨rank_first_desc_spec.1,
   rank_first_desc_spec.2 [10, 30, 20, 30, 5] (rankOfIdx [10, 30, 20, 30, 5] 0) (by decide)⟩

/-! ### Claim C2: join order -/

lemma filter_map_eq_flatMap {α γ : Type} (l : List α) (p : α → Bool) (q : α → γ) :
    (l.filter p).map q = l.flatMap fun b => if p b then [q b] else [] := by
  induction l with
  | nil => rfl
  | cons b t ih =>
    by_cases h : p b = true
    · simp [List.filter_cons, h, ih]
    · simp [List.filter_cons, h, ih]

lemma flatMap_swap_perm {α β γ : Type} (r : List α) (l : List β) (f : α → β → List γ) :
    (r.flatMap fun a => l.flatMap fun b => f a b).Perm
      (l.flatMap fun b => r.flatMap fun a => f a b) := by
  rw [← Multiset.coe_eq_coe]
  simp only [← Multiset.coe_bind]
  exact Multiset.bind_bind (r : Multiset α) (l : Multiset β)

lemma mergeRenLoss_swap_perm (r : List RenRow) (l : List LossRow) :
    (mergeRenewableLosses r l).Perm (mergeLossesRenewable l r) := by
  have h1 : mergeRenewableLosses r l =
      r.flatMap fun a => l.flatMap fun b => if keyMatchRL a b then [mkRow2 a b] else [] := by
    rw [mergeRenewableLosses]
    exact List.flatMap_congr fun a _ => filter_map_eq_flatMap l _ _
  have h2 : mergeLossesRenewable l r =
      l.flatMap fun b => r.flatMap fun a => if keyMatchRL a b then [mkRow2 a b] else [] := by
    rw [mergeLossesRenewable]
    exact List.flatMap_congr fun b _ => filter_map_eq_flatMap r _ _
  rw [h1, h2]
  exact flatMap_swap_perm r l _

/-- Renewable source listing the shared keys in the order USA, FRA. -/
def renAB : List RenRow :=
  [⟨"USA", "United States", 2010, some 13⟩, ⟨"FRA", "France", 2010, some 16⟩]

/-- Losses source listing the same keys in the opposite order. -/
def lossBA : List LossRow :=
  [⟨"FRA", 2010, some 7⟩, ⟨"USA", 2010, some 6⟩]

/-- Consumption source covering both keys. -/
def consAB : List ConsRow :=
  [⟨"USA", 2010, 12000⟩, ⟨"FRA", 2010, 7000⟩]

/-- Counterexample to C2: duplicate-free sources on which the two join orders
do not produce the same table row-for-row — an inner merge preserves the
order of the left keys, so (renewable ⋈ losses) ⋈ consumption lists USA
before FRA while (losses ⋈ renewable) ⋈ consumption lists FRA before USA. -/
theorem integrate_join_order_cex :
    (renAB.map RenRow.key).Nodup ∧ (lossBA.map LossRow.key).Nodup ∧
    (consAB.map ConsRow.key).Nodup ∧
    integrate_data consAB renAB lossBA ≠ integrateLossesFirst consAB renAB lossBA := by
  decide

/-- Claim C2 as amended: for duplicate-free sources the two join orders
produce the same multiset of rows — the tables agree row-for-row up to row
order, though not in the order the rows are listed. -/
theorem integrate_join_order_perm (c : List ConsRow) (r : List RenRow) (l : List LossRow)
    (hr : (r.map RenRow.key).Nodup) (hl : (l.map LossRow.key).Nodup)
    (hc : (c.map ConsRow.key).Nodup) :
    (integrate_data c r l).Perm (integrateLossesFirst c r l) :=
  (mergeRenLoss_swap_perm r l).flatMap_right _

/-- Witness for C2 as amended: on the counterexample tables the two join
orders are permutations of each other. -/
theorem integrate_join_order_perm_witness :
    (renAB.map RenRow.key).Nodup ∧ (lossBA.map LossRow.key).Nodup ∧
    (consAB.map ConsRow.key).Nodup ∧
    (integrate_data consAB renAB lossBA).Perm (integrateLossesFirst consAB renAB lossBA) :=
  ⟨by decide, by decide, by decide,
   integrate_join_order_perm consAB renAB lossBA (by decide) (by decide) (by decide)⟩

/-! ### Claim C4: the consumption fetcher -/

/-- Claim C4: whenever every kept record (mapped code truthy, value non-null)
has a parseable date, the fetcher succeeds and emits exactly the kept
records, each as (mapped ISO-3 code, year parsed as integer, value); records
with an unmapped code or a null value contribute no row and cause no error —
the hypothesis does not constrain the dates of dropped records at all. -/
theorem fetch_consumption_data_spec (records : List ApiRecord)
    (h : ∀ it ∈ records, keepRecord it = true → (pyIntOfString it.date).isSome = true) :
    fetch_consumption_data records = Except.ok (records.filterMap consRowOfRecord) := by
  induction records with
  | nil => rfl
  | cons item rest ih =>
    have ihr := ih fun it hit => h it (List.mem_cons_of_mem _ hit)
    rw [List.filterMap_cons]
    cases hiso : iso2_to_iso3 item.country_id with
    | none =>
      simp only [fetch_consumption_data, consRowOfRecord, hiso]
      exact ihr
    | some iso3 =>
      cases hval : item.value with
      | none =>
        simp only [fetch_consumption_data, consRowOfRecord, hiso, hval]
        exact ihr
      | some v =>
        by_cases hemp : iso3.isEmpty
        · simp only [fetch_consumption_data, consRowOfRecord, hiso, hval, if_pos hemp]
          exact ihr
        · have hkeep : keepRecord item = true := by
            rw [keepRecord, hiso, hval]
            simp [pyTruthyStr, hemp]
          have hdate := h item (List.mem_cons_self _ _) hkeep
          obtain ⟨y, hy⟩ := Option.isSome_iff_exists.mp hdate
          simp only [fetch_consumption_data, consRowOfRecord, hiso, hval, if_neg hemp, hy,
            ihr, Except.map, Option.map_some]
          rfl

/-- API response for the C4 witness: a record with an unmapped aggregate code
and an unparseable date (dropped without error), a kept record, and a record
with a null value (dropped). -/
def apiDemo : List ApiRecord :=
  [⟨"XX", "oops", some 5⟩, ⟨"US", "2010", some 100⟩, ⟨"FR", "2011", none⟩]

/-- Witness for C4: the fetcher succeeds on `apiDemo` and emits exactly the
row of the one kept record. -/
theorem fetch_consumption_data_spec_witness :
    fetch_consumption_data apiDemo = Except.ok (apiDemo.filterMap consRowOfRecord) ∧
    apiDemo.filterMap consRowOfRecord = [⟨"USA", 2010, 100⟩] :=
  ⟨fetch_consumption_data_spec apiDemo (by decide), by decide⟩

/-! ### Claim C10: renewable row order is preserved -/

/-- The renewable part carried inside an integrated row. -/
def renPartOfRow (row : Row3) : RenRow :=
  ⟨row.country_code, row.country_name, row.year, row.renewable_electricity_percent⟩

lemma flatMap_opt_sublist {α : Type} (r : List α) (f : α → List α)
    (h : ∀ a ∈ r, f a = [] ∨ f a = [a]) : List.Sublist (r.flatMap f) r := by
  induction r with
  | nil => simp
  | cons a t ih =>
    rw [List.flatMap_cons]
    have iht := ih fun x hx => h x (List.mem_cons_of_mem _ hx)
    rcases h a (List.mem_cons_self a t) with ha | ha
    · rw [ha, List.nil_append]
      exact List.Sublist.cons a iht
    · rw [ha, List.singleton_append]
      exact List.Sublist.cons₂ a iht

lemma filter_nodup_key_short {α κ : Type} (key : α → κ) (l : List α)
    (hl : (l.map key).Nodup) (p : α → Bool) (K : κ) (hp : ∀ x, p x = true → key x = K) :
    l.filter p = [] ∨ ∃ x, l.filter p = [x] := by
  rcases hm : l.filter p with _ | ⟨x, _ | ⟨y, t⟩⟩
  · exact Or.inl rfl
  · exact Or.inr ⟨x, rfl⟩
  · exfalso
    have hsub : List.Sublist ((l.filter p).map key) (l.map key) :=
      (List.filter_sublist l).map key
    have hnd : ((l.filter p).map key).Nodup := hsub.nodup hl
    rw [hm] at hnd
    have hx : x ∈ l.filter p := by
      rw [hm]
      exact List.mem_cons_self _ _
    have hy : y ∈ l.filter p := by
      rw [hm]
      simp
    have hpx := hp x (List.mem_filter.mp hx).2
    have hpy := hp y (List.mem_filter.mp hy).2
    have hne : key x ≠ key y := by
      have hnotin := (List.nodup_cons.mp hnd).1
      simp only [List.map_cons, List.mem_cons] at hnotin
      exact fun hxy => hnotin (Or.inl hxy)
    exact hne (hpx.trans hpy.symm)

/-- Claim C10: for duplicate-free sources, the integrated rows appear in the
same relative order as their matching renewable rows — projecting each
integrated row to its renewable part yields a sublist (an in-order selection)
of the renewable source, so integration never reorders surviving renewable
rows. -/
theorem integrate_preserves_renewable_order (c : List ConsRow) (r : List RenRow)
    (l : List LossRow) (hr : (r.map RenRow.key).Nodup) (hl : (l.map LossRow.key).Nodup)
    (hc : (c.map ConsRow.key).Nodup) :
    List.Sublist ((integrate_data c r l).map renPartOfRow) r := by
  have hEq : (integrate_data c r l).map renPartOfRow =
      r.flatMap fun a =>
        (((l.filter fun b => keyMatchRL a b).map fun b => mkRow2 a b).flatMap fun d =>
          (c.filter fun e => keyMatchC d e).map fun e => mkRow3 d e).map renPartOfRow := by
    rw [integrate_data, mergeRenewableLosses, List.flatMap_assoc, List.map_flatMap]
  rw [hEq]
  refine flatMap_opt_sublist r _ ?_
  intro a ha
  rcases filter_nodup_key_short LossRow.key l hl (fun b => keyMatchRL a b) (RenRow.key a)
      (fun b hb => ((keyMatchRL_iff a b).mp hb).symm) with hfl | ⟨b, hfl⟩
  · left
    rw [hfl]
    rfl
  · rw [hfl]
    rcases filter_nodup_key_short ConsRow.key c hc (fun e => keyMatchC (mkRow2 a b) e)
        ((mkRow2 a b).country_code, (mkRow2 a b).year)
        (fun e he => ((keyMatchC_iff _ e).mp he).symm) with hfc | ⟨e, hfc⟩
    · left
      simp [hfc]
    · right
      simp [hfc]
      rfl

/-- Witness for C10: on the duplicate-free example tables the projected
integrated rows form a sublist of the renewable source. -/
theorem integrate_preserves_renewable_order_witness :
    (renC1.map RenRow.key).Nodup ∧ (lossC1.map LossRow.key).Nodup ∧
    (consC1.map ConsRow.key).Nodup ∧
    List.Sublist ((integrate_data consC1 renC1 lossC1).map renPartOfRow) renC1 :=
  ⟨by decide, by decide, by decide,
   integrate_preserves_renewable_order consC1 renC1 lossC1 (by decide) (by decide) (by decide)⟩
